import Mathlib

/-!
Shallow embedding of the Sprint Analytics Engine of `src/server.py`
(jira-mcp). The pure aggregation and classification routines of the
analyzers — `analyze_sprint_commitment`, `analyze_velocity_trend`,
`analyze_priority_focus`, `analyze_team_workload` and
`sprint_health_dashboard` — are translated into Lean functions over an
already-fetched snapshot of issue records. Numbers that Python treats as
ints/floats are modelled as `ℚ` (story points may be fractional);
issue counts are `ℕ`. The fetch boundary (Jira client calls) is out of
scope; analyzers take the fetched issue lists as arguments.
-/

namespace JiraMCP

/-- Canonical status bucket. `server.py` classifies by
`issue.fields.status.statusCategory.name`: `Done`/`Complete` → done,
else `In Progress`/`In Development` → in progress, else todo
(lines 139-150 and the analogous elif chains in the other analyzers). -/
inductive Bucket
  | todo
  | inProgress
  | done
deriving DecidableEq, Repr

/-- One normalized issue record, as read by the analyzers.
`storyPoints` models `getattr(issue.fields, 'customfield_10016', 0) or 0`
(so the default-to-zero is already applied); `priority` and `assignee`
are `none` when the raw field is null; `projectKey` models
`issue.fields.project.key`, read only by `analyze_priority_focus`. -/
structure Issue where
  key : String
  summary : String
  statusCategory : String
  priority : Option String
  assignee : Option String
  storyPoints : ℚ
  projectKey : String
deriving DecidableEq, Repr

/-- Test `status_category in ['Done', 'Complete']` from the source. -/
def isDone (i : Issue) : Bool :=
  i.statusCategory == "Done" || i.statusCategory == "Complete"

/-- Test `status_category in ['In Progress', 'In Development']`. -/
def isInProgress (i : Issue) : Bool :=
  i.statusCategory == "In Progress" || i.statusCategory == "In Development"

/-- The if/elif/else chain over the status category (lines 139-150):
done first, then in progress, everything else todo. -/
def bucketOf (i : Issue) : Bucket :=
  if isDone i then Bucket.done
  else if isInProgress i then Bucket.inProgress
  else Bucket.todo

/-- `issue.fields.priority.name if issue.fields.priority else 'No Priority'`. -/
def priorityName (i : Issue) : String :=
  i.priority.getD "No Priority"

/-- `issue.fields.assignee.displayName if issue.fields.assignee else 'Unassigned'`. -/
def assigneeName (i : Issue) : String :=
  i.assignee.getD "Unassigned"

/-- Python truthiness of `story_points` (`if story_points:`): true iff
the value is nonzero. -/
def hasPoints (i : Issue) : Bool :=
  decide (i.storyPoints ≠ 0)

/-! ### Shared aggregation (lines 110-156, reused at 450-468, 858-913)

The Python loops accumulate per-status counters in one pass; each
counter's final value is the aggregate over the sublist of issues that
hit its branch, which is what the definitions below compute. The
`if story_points:` guard in the source only skips adding a zero, so the
point sums are unchanged by dropping it. -/

/-- `completed_issues`: issues whose status category is Done/Complete. -/
def completedIssuesCount (issues : List Issue) : ℕ :=
  (issues.filter (fun i => bucketOf i == Bucket.done)).length

/-- `in_progress_issues`. -/
def inProgressIssuesCount (issues : List Issue) : ℕ :=
  (issues.filter (fun i => bucketOf i == Bucket.inProgress)).length

/-- `todo_issues`. -/
def todoIssuesCount (issues : List Issue) : ℕ :=
  (issues.filter (fun i => bucketOf i == Bucket.todo)).length

/-- `total_committed_points`: sum of story points over all issues
(the source adds under `if story_points:`, which only skips zeros). -/
def totalPointsSum (issues : List Issue) : ℚ :=
  (issues.map Issue.storyPoints).sum

/-- `completed_points`: story points of Done/Complete issues. -/
def completedPointsSum (issues : List Issue) : ℚ :=
  ((issues.filter (fun i => bucketOf i == Bucket.done)).map Issue.storyPoints).sum

/-- `in_progress_points`. -/
def inProgressPointsSum (issues : List Issue) : ℚ :=
  ((issues.filter (fun i => bucketOf i == Bucket.inProgress)).map Issue.storyPoints).sum

/-- `todo_points`. -/
def todoPointsSum (issues : List Issue) : ℚ :=
  ((issues.filter (fun i => bucketOf i == Bucket.todo)).map Issue.storyPoints).sum

/-- `issues_with_points`: how many issues have truthy story points. -/
def issuesWithPointsCount (issues : List Issue) : ℕ :=
  (issues.filter hasPoints).length

/-! ### Commitment analyzer (`analyze_sprint_commitment`, lines 97-263) -/

/-- The overcommitment elif chain of lines 170-178 (also lines 922-930
in the dashboard). -/
def commitmentStatusOf (rate : ℚ) : String :=
  if 80 ≤ rate then "ON_TRACK"
  else if 60 ≤ rate then "AT_RISK"
  else if 40 ≤ rate then "OVERCOMMITTED"
  else "SEVERELY_OVERCOMMITTED"

/-- The `risk_level` conditional expression of line 216. -/
def riskLevelOf (rate : ℚ) : String :=
  if 70 ≤ rate then "LOW"
  else if 50 ≤ rate then "MEDIUM"
  else "HIGH"

/-- The fields of the commitment analysis that the claims are about
(counts, point sums, rates, and the two classification strings). -/
structure CommitmentResult where
  totalIssues : ℕ
  completedIssues : ℕ
  inProgressIssues : ℕ
  todoIssues : ℕ
  totalCommittedPoints : ℚ
  completedPoints : ℚ
  inProgressPoints : ℚ
  todoPoints : ℚ
  issuesWithPoints : ℕ
  usesStoryPoints : Bool
  storyPointCompletionRate : ℚ
  issueCompletionRate : ℚ
  primaryCompletionRate : ℚ
  remainingWork : ℚ
  workInProgress : ℚ
  workNotStarted : ℚ
  commitmentStatus : String
  riskLevel : String
deriving DecidableEq, Repr

/-- `analyze_sprint_commitment` (lines 97-263), the pure part after the
issue snapshot is fetched. Rates guard the division exactly as the
source does (`if total > 0 else 0`); the `round(·, 1)` applied when
serializing the JSON payload is presentation only and not modelled. -/
def analyzeSprintCommitment (issues : List Issue) : CommitmentResult :=
  let total_issues := issues.length
  let completed_issues := completedIssuesCount issues
  let in_progress_issues := inProgressIssuesCount issues
  let todo_issues := todoIssuesCount issues
  let total_committed_points := totalPointsSum issues
  let completed_points := completedPointsSum issues
  let in_progress_points := inProgressPointsSum issues
  let todo_points := todoPointsSum issues
  let issues_with_points := issuesWithPointsCount issues
  let story_point_completion_rate :=
    if 0 < total_committed_points
    then completed_points / total_committed_points * 100 else 0
  let issue_completion_rate :=
    if 0 < total_issues
    then (completed_issues : ℚ) / (total_issues : ℚ) * 100 else 0
  let uses_story_points := decide (0 < issues_with_points)
  let primary_completion_rate :=
    if uses_story_points then story_point_completion_rate else issue_completion_rate
  let remaining_work :=
    if uses_story_points then total_committed_points - completed_points
    else ((total_issues : ℚ) - (completed_issues : ℚ))
  let work_in_progress :=
    if uses_story_points then in_progress_points else (in_progress_issues : ℚ)
  { totalIssues := total_issues
    completedIssues := completed_issues
    inProgressIssues := in_progress_issues
    todoIssues := todo_issues
    totalCommittedPoints := total_committed_points
    completedPoints := completed_points
    inProgressPoints := in_progress_points
    todoPoints := todo_points
    issuesWithPoints := issues_with_points
    usesStoryPoints := uses_story_points
    storyPointCompletionRate := story_point_completion_rate
    issueCompletionRate := issue_completion_rate
    primaryCompletionRate := primary_completion_rate
    remainingWork := remaining_work
    workInProgress := work_in_progress
    workNotStarted := remaining_work - work_in_progress
    commitmentStatus := commitmentStatusOf primary_completion_rate
    riskLevel := riskLevelOf primary_completion_rate }

/-! ### Velocity trend analyzer (`analyze_velocity_trend`, lines 427-544) -/

/-- One sprint as the velocity analyzer sees it: the raw sprint fields
used for windowing, plus its independently fetched issue list. -/
structure SprintInput where
  id : ℕ
  name : String
  startDate : Option String
  issues : List Issue
deriving DecidableEq, Repr

/-- Sort key `lambda x: x.startDate` of line 436; the filter at line 435
guarantees the date is present when the key is read. -/
def dateKey (s : SprintInput) : String :=
  s.startDate.getD ""

/-- Lexicographic ≤ on character lists by code point, the order Python
uses when it compares the `startDate` strings. -/
def strLeChars : List Char → List Char → Bool
  | [], _ => true
  | _ :: _, [] => false
  | a :: as, b :: bs =>
    if a.toNat < b.toNat then true
    else if b.toNat < a.toNat then false
    else strLeChars as bs

/-- Python's string ≤ (code-point lexicographic). -/
def strLe (x y : String) : Bool :=
  strLeChars x.data y.data

/-- Stable insertion keeping later start dates first, used to model
`sorted(..., key=lambda x: x.startDate, reverse=True)` of lines 435-436.
Python's sort is stable and `reverse=True` keeps the original order of
equal keys; inserting `x` before the first element whose key is ≤ its
own reproduces that. -/
def insertByDateDesc (x : SprintInput) : List SprintInput → List SprintInput
  | [] => [x]
  | y :: ys =>
    if strLe (dateKey y) (dateKey x) then x :: y :: ys
    else y :: insertByDateDesc x ys

/-- Stable descending sort by start date (lines 435-436). -/
def sortByDateDesc : List SprintInput → List SprintInput
  | [] => []
  | x :: xs => insertByDateDesc x (sortByDateDesc xs)

/-- Lines 435-439: keep sprints with a start date, sort descending by
start date, take the first `sprint_count`. -/
def sprintWindow (sprints : List SprintInput) (sprintCount : ℕ) : List SprintInput :=
  (sortByDateDesc (sprints.filter (fun s => s.startDate.isSome))).take sprintCount

/-- A sprint's `uses_story_points` flag (line 476): some issue has
truthy story points. -/
def sprintUsesPoints (s : SprintInput) : Bool :=
  decide (0 < issuesWithPointsCount s.issues)

/-- Lines 492-497: the velocity series the trend is computed over.
`uses_points` is true if any analyzed sprint used points; in that case
the list comprehension keeps only the sprints whose own
`uses_story_points` flag is set and reads their completed points,
otherwise every sprint contributes its completed issue count. -/
def chosenVelocities (sprints : List SprintInput) (sprintCount : ℕ) : List ℚ :=
  let w := sprintWindow sprints sprintCount
  if w.any sprintUsesPoints then
    (w.filter sprintUsesPoints).map (fun s => completedPointsSum s.issues)
  else
    w.map (fun s => (completedIssuesCount s.issues : ℚ))

/-- Lines 500-507: trend direction and percentage change from the
velocity series. `velocities[:2]` is `take 2` and `velocities[-2:]` is
`drop (length - 2)` (both agree with the Python slices at every
length); the inner conditionals mirror the source even though their
else branches are unreachable under the outer guard. -/
def trendCalc (velocities : List ℚ) : String × ℚ :=
  if 2 ≤ velocities.length then
    let recent_avg :=
      if 2 ≤ velocities.length then (velocities.take 2).sum / 2 else velocities.headD 0
    let older_avg :=
      if 2 ≤ velocities.length
      then (velocities.drop (velocities.length - 2)).sum / 2 else velocities.getLastD 0
    let trend_direction :=
      if recent_avg > older_avg then "UP"
      else if recent_avg < older_avg then "DOWN" else "STABLE"
    let trend_percentage :=
      if 0 < older_avg then (recent_avg - older_avg) / older_avg * 100 else 0
    (trend_direction, trend_percentage)
  else
    ("INSUFFICIENT_DATA", 0)

/-- Line 509: `sum(velocities) / len(velocities) if velocities else 0`. -/
def avgVelocity (velocities : List ℚ) : ℚ :=
  if velocities = [] then 0 else velocities.sum / (velocities.length : ℚ)

/-- The trend fields of the velocity analysis payload (lines 515-528). -/
structure VelocityTrendResult where
  sprintsAnalyzed : ℕ
  direction : String
  percentageChange : ℚ
  averageVelocity : ℚ
  usesPoints : Bool
deriving DecidableEq, Repr

/-- `analyze_velocity_trend` (lines 427-544) after the fetches. When
fewer than 2 sprints carry velocity data, lines 511-513 assign
`INSUFFICIENT_DATA`, but building the result dict at line 523 reads the
local `uses_points`, which is assigned only inside the
`len(velocity_data) >= 2` branch (line 492): Python raises `NameError`,
which the surrounding `except` turns into an HTTP 500. That failure is
modelled as `Except.error`. -/
def analyzeVelocityTrend (sprints : List SprintInput) (sprintCount : ℕ) :
    Except String VelocityTrendResult :=
  let w := sprintWindow sprints sprintCount
  if 2 ≤ w.length then
    let uses_points := w.any sprintUsesPoints
    let velocities := chosenVelocities sprints sprintCount
    let tc := trendCalc velocities
    Except.ok
      { sprintsAnalyzed := w.length
        direction := tc.1
        percentageChange := tc.2
        averageVelocity := avgVelocity velocities
        usesPoints := uses_points }
  else
    Except.error "NameError: name uses_points is not defined"

/-! ### Priority focus analyzer (`analyze_priority_focus`, lines 546-680) -/

/-- Per-priority bucket total in the sprint breakdown (lines 572-577). -/
def pfTotal (issues : List Issue) (p : String) : ℕ :=
  (issues.filter (fun i => priorityName i == p)).length

/-- Per-priority completed count (lines 590-591). -/
def pfCompleted (issues : List Issue) (p : String) : ℕ :=
  (issues.filter (fun i => priorityName i == p && (bucketOf i == Bucket.done))).length

/-- Per-priority in-progress count (lines 593-594). -/
def pfInProgress (issues : List Issue) (p : String) : ℕ :=
  (issues.filter (fun i => priorityName i == p && (bucketOf i == Bucket.inProgress))).length

/-- Per-priority todo count (lines 595-596). -/
def pfTodo (issues : List Issue) (p : String) : ℕ :=
  (issues.filter (fun i => priorityName i == p && (bucketOf i == Bucket.todo))).length

/-- The distinct priority names occurring in the sprint, the keys of
the `sprint_analysis` defaultdict. -/
def priorityKeys (issues : List Issue) : List String :=
  (issues.map priorityName).dedup

/-- Line 628: `sum(data['total'] for data in sprint_analysis.values())`. -/
def pfTotalSprintIssues (issues : List Issue) : ℕ :=
  ((priorityKeys issues).map (pfTotal issues)).sum

/-- The fields of the priority-focus payload the claims are about. -/
structure PriorityFocusResult where
  criticalInSprint : ℕ
  criticalInBacklog : ℕ
  criticalCompleted : ℕ
  criticalInProgress : ℕ
  highPriorityInSprint : ℕ
  totalSprintIssues : ℕ
  highPriorityPercentage : ℚ
  criticalCompletionRate : ℚ
  focusScore : String
  criticalCoverage : String
  missedCriticalItems : ℕ
deriving DecidableEq, Repr

/-- `analyze_priority_focus` (lines 546-680) after the sprint fetch.
Lines 559-564: the backlog query runs only when the sprint has issues
(`if sprint_issues:`), using the project key of the first issue;
`backlogOf` stands for that fetch, and an empty sprint analyzes an
empty backlog without calling it. -/
def analyzePriorityFocus (sprintIssues : List Issue)
    (backlogOf : String → List Issue) : PriorityFocusResult :=
  let backlog :=
    match sprintIssues with
    | [] => []
    | i :: _ => backlogOf i.projectKey
  let critical_in_sprint := pfTotal sprintIssues "Critical"
  let critical_in_backlog := pfTotal backlog "Critical"
  let critical_completed := pfCompleted sprintIssues "Critical"
  let critical_in_progress := pfInProgress sprintIssues "Critical"
  let high_priority_in_sprint :=
    pfTotal sprintIssues "Critical" + pfTotal sprintIssues "Highest" +
      pfTotal sprintIssues "High"
  let total_sprint_issues := pfTotalSprintIssues sprintIssues
  let high_priority_percentage :=
    if 0 < total_sprint_issues
    then (high_priority_in_sprint : ℚ) / (total_sprint_issues : ℚ) * 100 else 0
  { criticalInSprint := critical_in_sprint
    criticalInBacklog := critical_in_backlog
    criticalCompleted := critical_completed
    criticalInProgress := critical_in_progress
    highPriorityInSprint := high_priority_in_sprint
    totalSprintIssues := total_sprint_issues
    highPriorityPercentage := high_priority_percentage
    criticalCompletionRate :=
      if 0 < critical_in_sprint
      then (critical_completed : ℚ) / (critical_in_sprint : ℚ) * 100 else 0
    focusScore :=
      if 60 ≤ high_priority_percentage then "HIGH"
      else if 40 ≤ high_priority_percentage then "MEDIUM" else "LOW"
    criticalCoverage :=
      if critical_in_backlog ≤ critical_in_sprint then "GOOD" else "NEEDS_ATTENTION"
    missedCriticalItems := critical_in_backlog }

/-! ### Workload analyzer (`analyze_team_workload`, lines 682-833) -/

/-- Per-assignee issue total (line 713). -/
def assigneeTotal (issues : List Issue) (a : String) : ℕ :=
  (issues.filter (fun i => assigneeName i == a)).length

/-- Per-assignee completed count (lines 728-729). -/
def assigneeCompleted (issues : List Issue) (a : String) : ℕ :=
  (issues.filter (fun i => assigneeName i == a && (bucketOf i == Bucket.done))).length

/-- Per-assignee in-progress count (lines 730-731). -/
def assigneeInProgress (issues : List Issue) (a : String) : ℕ :=
  (issues.filter (fun i => assigneeName i == a && (bucketOf i == Bucket.inProgress))).length

/-- Per-assignee todo count (lines 735-736). -/
def assigneeTodo (issues : List Issue) (a : String) : ℕ :=
  (issues.filter (fun i => assigneeName i == a && (bucketOf i == Bucket.todo))).length

/-- The load-level elif chain of lines 744-751, a function of the
assignee's total issue count. -/
def loadLevelOf (total : ℕ) : String :=
  if 13 ≤ total then "OVERLOADED"
  else if 9 ≤ total then "HIGH"
  else if 5 ≤ total then "NORMAL"
  else "LIGHT"

/-- An assignee's `load_level` as `analyze_team_workload` reports it. -/
def assigneeLoadLevel (issues : List Issue) (a : String) : String :=
  loadLevelOf (assigneeTotal issues a)

/-! ### Dashboard composer (`sprint_health_dashboard`, lines 835-1046) -/

/-- The distinct assignee names in the snapshot, the keys of the
`workload_by_assignee` defaultdict. -/
def assigneeKeys (issues : List Issue) : List String :=
  (issues.map assigneeName).dedup

/-- `uses_story_points` of line 916, same test as the commitment
analyzer. -/
def dashUsesPoints (issues : List Issue) : Bool :=
  decide (0 < issuesWithPointsCount issues)

/-- Completion rate of lines 917-920: point rate when any issue has
points, else count rate, division guarded by zero checks. -/
def dashCompletionRate (issues : List Issue) : ℚ :=
  if dashUsesPoints issues then
    if 0 < totalPointsSum issues
    then completedPointsSum issues / totalPointsSum issues * 100 else 0
  else
    if 0 < issues.length
    then (completedIssuesCount issues : ℚ) / (issues.length : ℚ) * 100 else 0

/-- Commitment status of lines 922-930 (same elif chain as the
standalone analyzer). -/
def dashCommitmentStatus (issues : List Issue) : String :=
  commitmentStatusOf (dashCompletionRate issues)

/-- `critical_total` of line 933. -/
def dashCriticalTotal (issues : List Issue) : ℕ :=
  pfTotal issues "Critical"

/-- `critical_in_progress` of line 934. -/
def dashCriticalInProgress (issues : List Issue) : ℕ :=
  pfInProgress issues "Critical"

/-- The dashboard's per-priority completed count (lines 898-899),
giving the `Critical` bucket's completed total. -/
def dashCriticalCompleted (issues : List Issue) : ℕ :=
  pfCompleted issues "Critical"

/-- `high_priority_total` of lines 935-937. -/
def dashHighPriorityTotal (issues : List Issue) : ℕ :=
  pfTotal issues "Critical" + pfTotal issues "Highest" + pfTotal issues "High"

/-- `high_priority_percentage` of line 938 (divides by `total_issues`,
the raw snapshot length). -/
def dashHighPriorityPercentage (issues : List Issue) : ℚ :=
  if 0 < issues.length
  then (dashHighPriorityTotal issues : ℚ) / (issues.length : ℚ) * 100 else 0

/-- `overloaded_members` of lines 945-948: assignees other than
`Unassigned` with at least 13 issues. -/
def dashOverloadedMembers (issues : List Issue) : List String :=
  (assigneeKeys issues).filter
    (fun a => a != "Unassigned" && decide (13 ≤ assigneeTotal issues a))

/-- `wip_violators` of lines 945-950: assignees other than `Unassigned`
with more than 2 issues in progress. -/
def dashWipViolators (issues : List Issue) : List String :=
  (assigneeKeys issues).filter
    (fun a => a != "Unassigned" && decide (2 < assigneeInProgress issues a))

/-- The dashboard's recommendation strings, as tags (the free text of
lines 983-1000 is presentation only). -/
inductive DashRec
  | severeScopeCut
  | reduceScope
  | redistribute
  | wipFocus
  | startCritical
  | raisePriorityFocus
  | healthy
deriving DecidableEq, Repr

/-- The recommendation block of lines 980-1000 over the computed stats:
sequential conditional appends, so the produced list is a concatenation
of conditional singletons, with the healthy fallback when none fired. -/
def dashRecsOf (status : String) (overloaded wip : Bool)
    (critTotal critInProg : ℕ) (hpPct : ℚ) : List DashRec :=
  let base :=
    (if status == "SEVERELY_OVERCOMMITTED" then [DashRec.severeScopeCut]
     else if status == "OVERCOMMITTED" then [DashRec.reduceScope] else []) ++
    (if overloaded then [DashRec.redistribute] else []) ++
    (if wip then [DashRec.wipFocus] else []) ++
    (if 0 < critTotal ∧ critInProg = 0 then [DashRec.startCritical] else []) ++
    (if hpPct < 50 then [DashRec.raisePriorityFocus] else [])
  if base.isEmpty then [DashRec.healthy] else base

/-- The dashboard's merged recommendation list for one issue snapshot
(lines 980-1000, fed by the stats computed at lines 858-950). -/
def dashboardRecommendations (issues : List Issue) : List DashRec :=
  dashRecsOf (dashCommitmentStatus issues)
    (!(dashOverloadedMembers issues).isEmpty)
    (!(dashWipViolators issues).isEmpty)
    (dashCriticalTotal issues) (dashCriticalInProgress issues)
    (dashHighPriorityPercentage issues)

/-- `sprint_health_dashboard` short-circuits at line 847 when the
snapshot is empty, returning a `no issues found` payload with no
analysis; otherwise the merged analysis (here: its recommendation
list) is produced. -/
def sprintHealthDashboard (issues : List Issue) : Option (List DashRec) :=
  if issues.isEmpty then none else some (dashboardRecommendations issues)

/-! ### Concrete fixtures used by counterexamples and witnesses -/

/-- A completed critical issue with no story points. -/
def doneCriticalIssue : Issue :=
  { key := "PROJ-1", summary := "hotfix", statusCategory := "Done",
    priority := some "Critical", assignee := some "Alice",
    storyPoints := 0, projectKey := "PROJ" }

/-- A completed 5-point issue. -/
def donePointedIssue : Issue :=
  { key := "PROJ-2", summary := "feature", statusCategory := "Done",
    priority := some "Medium", assignee := some "Bob",
    storyPoints := 5, projectKey := "PROJ" }

/-- A completed issue with no story points and medium priority. -/
def donePlainIssue : Issue :=
  { key := "PROJ-3", summary := "chore", statusCategory := "Done",
    priority := some "Medium", assignee := some "Cara",
    storyPoints := 0, projectKey := "PROJ" }

/-- A sprint that used story points (one completed 5-point issue). -/
def pointedSprint : SprintInput :=
  { id := 1, name := "Sprint 1", startDate := some "2024-02-01",
    issues := [donePointedIssue] }

/-- A sprint without story points (one completed plain issue). -/
def plainSprint : SprintInput :=
  { id := 2, name := "Sprint 2", startDate := some "2024-01-01",
    issues := [donePlainIssue] }

/-- A lone sprint with a start date and no issues. -/
def loneSprint : SprintInput :=
  { id := 3, name := "Sprint 3", startDate := some "2024-01-01", issues := [] }

/-! ### Helper lemmas -/

/-- Characterization of the four-tier commitment elif chain. -/
theorem commitmentStatusOf_cases (r : ℚ) :
    (commitmentStatusOf r = "ON_TRACK" ↔ 80 ≤ r) ∧
    (commitmentStatusOf r = "AT_RISK" ↔ 60 ≤ r ∧ r < 80) ∧
    (commitmentStatusOf r = "OVERCOMMITTED" ↔ 40 ≤ r ∧ r < 60) ∧
    (commitmentStatusOf r = "SEVERELY_OVERCOMMITTED" ↔ r < 40) := by
  unfold commitmentStatusOf
  split_ifs with h1 h2 h3 <;> refine ⟨?_, ?_, ?_, ?_⟩ <;> simp_all <;>
    first
      | linarith
      | (intro h; linarith)
      | (constructor <;> intro h <;> linarith)

/-- Characterization of the three-tier risk scale. -/
theorem riskLevelOf_cases (r : ℚ) :
    (riskLevelOf r = "LOW" ↔ 70 ≤ r) ∧
    (riskLevelOf r = "MEDIUM" ↔ 50 ≤ r ∧ r < 70) ∧
    (riskLevelOf r = "HIGH" ↔ r < 50) := by
  unfold riskLevelOf
  split_ifs with h1 h2 <;> refine ⟨?_, ?_, ?_⟩ <;> simp_all <;>
    first
      | linarith
      | (intro h; linarith)
      | (constructor <;> intro h <;> linarith)

/-- Characterization of the load-level elif chain. -/
theorem loadLevelOf_cases (n : ℕ) :
    (loadLevelOf n = "OVERLOADED" ↔ 13 ≤ n) ∧
    (loadLevelOf n = "HIGH" ↔ 9 ≤ n ∧ n < 13) ∧
    (loadLevelOf n = "NORMAL" ↔ 5 ≤ n ∧ n < 9) ∧
    (loadLevelOf n = "LIGHT" ↔ n < 5) := by
  unfold loadLevelOf
  split_ifs with h1 h2 h3 <;>
    refine ⟨?_, ?_, ?_, ?_⟩ <;> simp_all <;> omega

/-- Characterization of the UP/DOWN/STABLE conditional expression. -/
theorem trendDirection_cases (r o : ℚ) :
    ((if o < r then "UP" else if r < o then "DOWN" else "STABLE") = "UP" ↔ o < r) ∧
    ((if o < r then "UP" else if r < o then "DOWN" else "STABLE") = "DOWN" ↔ r < o) ∧
    ((if o < r then "UP" else if r < o then "DOWN" else "STABLE") = "STABLE" ↔ r = o) := by
  split_ifs with h1 h2 <;> refine ⟨?_, ?_, ?_⟩ <;> simp_all <;>
    first
      | linarith
      | (intro h; linarith)
      | (constructor <;> intro h <;> linarith)

/-- Splitting a filtered count by the three status buckets loses
nothing: every issue lands in exactly one bucket. -/
theorem filter_bucket_length_partition (P : Issue → Bool) (l : List Issue) :
    (l.filter (fun i => P i && (bucketOf i == Bucket.done))).length +
      (l.filter (fun i => P i && (bucketOf i == Bucket.inProgress))).length +
      (l.filter (fun i => P i && (bucketOf i == Bucket.todo))).length
    = (l.filter P).length := by
  induction l with
  | nil => rfl
  | cons a l ih =>
    cases hP : P a
    · simp only [List.filter_cons, hP, Bool.false_and, Bool.false_eq_true, if_false]
      exact ih
    · cases hb : bucketOf a <;> simp [List.filter_cons, hP, hb] <;> omega

/-- The three status-bucket counts of the commitment aggregation sum to
the snapshot size. -/
theorem commitment_count_partition (l : List Issue) :
    completedIssuesCount l + inProgressIssuesCount l + todoIssuesCount l = l.length := by
  unfold completedIssuesCount inProgressIssuesCount todoIssuesCount
  induction l with
  | nil => rfl
  | cons a l ih =>
    cases hb : bucketOf a <;> simp [List.filter_cons, hb] <;> omega

/-- The three status-bucket point sums of the commitment aggregation
sum to the total committed points. -/
theorem commitment_points_partition (l : List Issue) :
    completedPointsSum l + inProgressPointsSum l + todoPointsSum l = totalPointsSum l := by
  unfold completedPointsSum inProgressPointsSum todoPointsSum totalPointsSum
  induction l with
  | nil => simp
  | cons a l ih =>
    cases hb : bucketOf a <;> simp [List.filter_cons, hb] <;> linarith

/-! ### Claims -/

/-- C1: the claim says a board whose filtered window yields exactly one
sprint still succeeds with `INSUFFICIENT_DATA` and percentage 0, and
that once the snapshot is fetched the analysis cannot fail. The code
instead crashes there: with fewer than 2 sprints, building the result
dict reads the local `uses_points`, assigned only in the 2-or-more
branch, so the call dies with a `NameError` (surfaced as HTTP 500).
Evaluating the embedding at a one-sprint board exhibits the failure. -/
theorem velocity_trend_one_sprint_errors :
    analyzeVelocityTrend [loneSprint] 3 =
      Except.error "NameError: name uses_points is not defined" := rfl

/-- C2 counterexample: the empty sprint yields total 0 and rate 0, but
the code has no zero-total special case, so the rate 0 falls through
the elif chain and the status reported is `SEVERELY_OVERCOMMITTED`,
contradicting the claim that this status is never reported for an
empty sprint with total 0. -/
theorem empty_sprint_reports_severely_overcommitted :
    (analyzeSprintCommitment []).totalIssues = 0 ∧
    (analyzeSprintCommitment []).primaryCompletionRate = 0 ∧
    (analyzeSprintCommitment []).commitmentStatus = "SEVERELY_OVERCOMMITTED" := by
  decide

/-- C2 amended: an empty sprint yields total 0, all rates 0, and a
defined, non-crashing result — whose commitment status is
`SEVERELY_OVERCOMMITTED` (0 is below the 40 threshold) and whose risk
level is `HIGH`. -/
theorem empty_sprint_commitment_result :
    (analyzeSprintCommitment []).totalIssues = 0 ∧
    (analyzeSprintCommitment []).totalCommittedPoints = 0 ∧
    (analyzeSprintCommitment []).storyPointCompletionRate = 0 ∧
    (analyzeSprintCommitment []).issueCompletionRate = 0 ∧
    (analyzeSprintCommitment []).primaryCompletionRate = 0 ∧
    (analyzeSprintCommitment []).commitmentStatus = "SEVERELY_OVERCOMMITTED" ∧
    (analyzeSprintCommitment []).riskLevel = "HIGH" := by
  decide

/-- C3: for every issue set the commitment analyzer classifies the
primary completion rate r as `ON_TRACK` iff r ≥ 80, `AT_RISK` iff
60 ≤ r < 80, `OVERCOMMITTED` iff 40 ≤ r < 60, else
`SEVERELY_OVERCOMMITTED`, and independently reports risk level `LOW`
iff r ≥ 70, `MEDIUM` iff 50 ≤ r < 70, else `HIGH` — two separate
scales applied to the same rate. -/
theorem commitment_threshold_scales (issues : List Issue) :
    ((analyzeSprintCommitment issues).commitmentStatus = "ON_TRACK" ↔
      80 ≤ (analyzeSprintCommitment issues).primaryCompletionRate) ∧
    ((analyzeSprintCommitment issues).commitmentStatus = "AT_RISK" ↔
      60 ≤ (analyzeSprintCommitment issues).primaryCompletionRate ∧
        (analyzeSprintCommitment issues).primaryCompletionRate < 80) ∧
    ((analyzeSprintCommitment issues).commitmentStatus = "OVERCOMMITTED" ↔
      40 ≤ (analyzeSprintCommitment issues).primaryCompletionRate ∧
        (analyzeSprintCommitment issues).primaryCompletionRate < 60) ∧
    ((analyzeSprintCommitment issues).commitmentStatus = "SEVERELY_OVERCOMMITTED" ↔
      (analyzeSprintCommitment issues).primaryCompletionRate < 40) ∧
    ((analyzeSprintCommitment issues).riskLevel = "LOW" ↔
      70 ≤ (analyzeSprintCommitment issues).primaryCompletionRate) ∧
    ((analyzeSprintCommitment issues).riskLevel = "MEDIUM" ↔
      50 ≤ (analyzeSprintCommitment issues).primaryCompletionRate ∧
        (analyzeSprintCommitment issues).primaryCompletionRate < 70) ∧
    ((analyzeSprintCommitment issues).riskLevel = "HIGH" ↔
      (analyzeSprintCommitment issues).primaryCompletionRate < 50) := by
  have hs : (analyzeSprintCommitment issues).commitmentStatus =
      commitmentStatusOf ((analyzeSprintCommitment issues).primaryCompletionRate) := rfl
  have hr : (analyzeSprintCommitment issues).riskLevel =
      riskLevelOf ((analyzeSprintCommitment issues).primaryCompletionRate) := rfl
  rw [hs, hr]
  have hc := commitmentStatusOf_cases ((analyzeSprintCommitment issues).primaryCompletionRate)
  have hk := riskLevelOf_cases ((analyzeSprintCommitment issues).primaryCompletionRate)
  exact ⟨hc.1, hc.2.1, hc.2.2.1, hc.2.2.2, hk.1, hk.2.1, hk.2.2⟩

/-- C9: for every assignee the load level is a function of that
assignee's total issue count — `OVERLOADED` iff ≥ 13, `HIGH` iff
9 ≤ total < 13, `NORMAL` iff 5 ≤ total < 9, else `LIGHT` — and the
boundary values 5, 9, 13 map exactly to the lower bounds of
NORMAL, HIGH, OVERLOADED. -/
theorem workload_load_level_thresholds (issues : List Issue) (a : String) :
    (assigneeLoadLevel issues a = "OVERLOADED" ↔ 13 ≤ assigneeTotal issues a) ∧
    (assigneeLoadLevel issues a = "HIGH" ↔
      9 ≤ assigneeTotal issues a ∧ assigneeTotal issues a < 13) ∧
    (assigneeLoadLevel issues a = "NORMAL" ↔
      5 ≤ assigneeTotal issues a ∧ assigneeTotal issues a < 9) ∧
    (assigneeLoadLevel issues a = "LIGHT" ↔ assigneeTotal issues a < 5) ∧
    loadLevelOf 5 = "NORMAL" ∧ loadLevelOf 9 = "HIGH" ∧ loadLevelOf 13 = "OVERLOADED" := by
  have h := loadLevelOf_cases (assigneeTotal issues a)
  exact ⟨h.1, h.2.1, h.2.2.1, h.2.2.2, rfl, rfl, rfl⟩

/-- C10: for an empty sprint the priority-focus analyzer takes the
`else` branch of the `if sprint_issues:` guard, so no backlog is
fetched at all: whatever the project's backlog would have returned
(any `backlogOf`), the result reports 0 critical items in backlog,
0 missed critical items, and `GOOD` critical coverage. -/
theorem empty_sprint_skips_backlog (backlogOf : String → List Issue) :
    (analyzePriorityFocus [] backlogOf).criticalInBacklog = 0 ∧
    (analyzePriorityFocus [] backlogOf).missedCriticalItems = 0 ∧
    (analyzePriorityFocus [] backlogOf).criticalCoverage = "GOOD" :=
  ⟨rfl, rfl, rfl⟩

/-- C6: for every issue set, in every analyzer's bucketed output the
todo + in-progress + done counts sum to the corresponding total and
the todo + in-progress + done point sums equal the total committed
points: the commitment analyzer's counts and point sums, the
priority-focus analyzer's per-priority bucket counts, and the workload
analyzer's per-assignee status counts. -/
theorem bucket_sums_match_totals (issues : List Issue) (p a : String) :
    (analyzeSprintCommitment issues).completedIssues +
        (analyzeSprintCommitment issues).inProgressIssues +
        (analyzeSprintCommitment issues).todoIssues =
      (analyzeSprintCommitment issues).totalIssues ∧
    (analyzeSprintCommitment issues).completedPoints +
        (analyzeSprintCommitment issues).inProgressPoints +
        (analyzeSprintCommitment issues).todoPoints =
      (analyzeSprintCommitment issues).totalCommittedPoints ∧
    pfCompleted issues p + pfInProgress issues p + pfTodo issues p = pfTotal issues p ∧
    assigneeCompleted issues a + assigneeInProgress issues a + assigneeTodo issues a =
      assigneeTotal issues a := by
  refine ⟨?_, ?_, ?_, ?_⟩
  · exact commitment_count_partition issues
  · exact commitment_points_partition issues
  · exact filter_bucket_length_partition (fun i => priorityName i == p) issues
  · exact filter_bucket_length_partition (fun i => assigneeName i == a) issues

/-- C7: the commitment analyzer selects the point completion rate as
primary iff at least one issue has positive story points (under the
data-model invariant that story points are nonnegative, Python
truthiness of the points field is exactly positivity), and otherwise
selects the count completion rate; a sprint with no story points is
always count-based. -/
theorem metric_selection_point_vs_count (issues : List Issue)
    (hnn : ∀ i ∈ issues, 0 ≤ i.storyPoints) :
    ((analyzeSprintCommitment issues).usesStoryPoints = true ↔
      ∃ i ∈ issues, 0 < i.storyPoints) ∧
    ((analyzeSprintCommitment issues).usesStoryPoints = true →
      (analyzeSprintCommitment issues).primaryCompletionRate =
        (analyzeSprintCommitment issues).storyPointCompletionRate) ∧
    ((analyzeSprintCommitment issues).usesStoryPoints = false →
      (analyzeSprintCommitment issues).primaryCompletionRate =
        (analyzeSprintCommitment issues).issueCompletionRate) := by
  have hprim : (analyzeSprintCommitment issues).primaryCompletionRate =
      if (analyzeSprintCommitment issues).usesStoryPoints
      then (analyzeSprintCommitment issues).storyPointCompletionRate
      else (analyzeSprintCommitment issues).issueCompletionRate := rfl
  refine ⟨?_, ?_, ?_⟩
  · rw [show (analyzeSprintCommitment issues).usesStoryPoints =
        decide (0 < issuesWithPointsCount issues) from rfl]
    simp only [decide_eq_true_eq, issuesWithPointsCount, List.length_pos_iff_exists_mem,
      List.mem_filter, hasPoints]
    constructor
    · rintro ⟨i, hi, hne⟩
      exact ⟨i, hi, lt_of_le_of_ne (hnn i hi) (Ne.symm hne)⟩
    · rintro ⟨i, hi, hpos⟩
      exact ⟨i, hi, ne_of_gt hpos⟩
  · intro h
    rw [hprim, h, if_pos rfl]
  · intro h
    rw [hprim, h]
    simp

/-- C7 witness: a one-issue sprint carrying 5 story points satisfies
the nonnegativity hypothesis and the conclusion. -/
theorem metric_selection_point_vs_count_witness :
    ((analyzeSprintCommitment [donePointedIssue]).usesStoryPoints = true ↔
      ∃ i ∈ [donePointedIssue], 0 < i.storyPoints) ∧
    ((analyzeSprintCommitment [donePointedIssue]).usesStoryPoints = true →
      (analyzeSprintCommitment [donePointedIssue]).primaryCompletionRate =
        (analyzeSprintCommitment [donePointedIssue]).storyPointCompletionRate) ∧
    ((analyzeSprintCommitment [donePointedIssue]).usesStoryPoints = false →
      (analyzeSprintCommitment [donePointedIssue]).primaryCompletionRate =
        (analyzeSprintCommitment [donePointedIssue]).issueCompletionRate) :=
  metric_selection_point_vs_count [donePointedIssue] (by decide)

/-- C4: given at least two (nonnegative) velocity values, the trend
computation takes `recent_avg` as the mean of the first two values and
`older_avg` as the mean of the last two, reports `UP` iff
recent > older, `DOWN` iff recent < older, `STABLE` iff equal, and a
percentage change of (recent − older)/older × 100 guarded to 0 when
older is 0; with exactly two values the windows coincide, forcing
`STABLE` with percentage 0. -/
theorem velocity_trend_window_calc (vs : List ℚ) (h2 : 2 ≤ vs.length)
    (hnn : ∀ v ∈ vs, 0 ≤ v) :
    ((trendCalc vs).1 = "UP" ↔
      (vs.drop (vs.length - 2)).sum / 2 < (vs.take 2).sum / 2) ∧
    ((trendCalc vs).1 = "DOWN" ↔
      (vs.take 2).sum / 2 < (vs.drop (vs.length - 2)).sum / 2) ∧
    ((trendCalc vs).1 = "STABLE" ↔
      (vs.take 2).sum / 2 = (vs.drop (vs.length - 2)).sum / 2) ∧
    ((trendCalc vs).2 =
      if (vs.drop (vs.length - 2)).sum / 2 = 0 then 0
      else ((vs.take 2).sum / 2 - (vs.drop (vs.length - 2)).sum / 2) /
        ((vs.drop (vs.length - 2)).sum / 2) * 100) ∧
    (vs.length = 2 → (trendCalc vs).1 = "STABLE" ∧ (trendCalc vs).2 = 0) := by
  have hc : trendCalc vs =
      (if (vs.drop (vs.length - 2)).sum / 2 < (vs.take 2).sum / 2 then "UP"
       else if (vs.take 2).sum / 2 < (vs.drop (vs.length - 2)).sum / 2 then "DOWN"
       else "STABLE",
       if 0 < (vs.drop (vs.length - 2)).sum / 2
       then ((vs.take 2).sum / 2 - (vs.drop (vs.length - 2)).sum / 2) /
         ((vs.drop (vs.length - 2)).sum / 2) * 100
       else 0) := by
    simp only [trendCalc, if_pos h2]
  have ho : 0 ≤ (vs.drop (vs.length - 2)).sum / 2 := by
    have : 0 ≤ (vs.drop (vs.length - 2)).sum :=
      List.sum_nonneg (fun v hv => hnn v (List.mem_of_mem_drop hv))
    positivity
  rw [hc]
  set r := (vs.take 2).sum / 2 with hr
  set o := (vs.drop (vs.length - 2)).sum / 2 with hod
  have hdir := trendDirection_cases r o
  refine ⟨hdir.1, hdir.2.1, hdir.2.2, ?_, ?_⟩
  · by_cases h0 : o = 0
    · simp [h0]
    · have hpos : 0 < o := lt_of_le_of_ne ho (Ne.symm h0)
      simp [h0, hpos]
  · intro hl
    have ht : vs.take 2 = vs := List.take_of_length_le (le_of_eq hl)
    have hd : vs.drop (vs.length - 2) = vs := by
      rw [hl]
      rfl
    have hro : r = o := by rw [hr, hod, ht, hd]
    refine ⟨(hdir.2.2).mpr hro, ?_⟩
    by_cases h0 : o = 0 <;> simp [hro, h0, sub_self]

/-- C4 witness: the spec scenario — velocities [20, 10], most recent
first — gives recent and older averages both 15, direction `STABLE`
and percentage change 0. -/
theorem velocity_trend_window_calc_witness :
    (trendCalc [20, 10]).1 = "STABLE" ∧ (trendCalc [20, 10]).2 = 0 :=
  (velocity_trend_window_calc [20, 10] (by decide) (by decide)).2.2.2.2 (by decide)

/-- C5 counterexample: a sprint holding one critical issue that is
already Done. The dashboard's critical rule (line 993) tests only
`critical_total > 0 and critical_in_progress == 0`, without the
`completed == 0` guard of the standalone analyzer (line 671), so the
critical-not-started recommendation fires even though the critical
item is completed — refuting the claim that it fires only when none
are completed. -/
theorem dashboard_critical_rec_fires_when_completed :
    dashboardRecommendations [doneCriticalIssue] = [DashRec.startCritical] ∧
    dashCriticalCompleted [doneCriticalIssue] = 1 ∧
    dashCriticalInProgress [doneCriticalIssue] = 0 := by
  have husp : dashUsesPoints [doneCriticalIssue] = false := by decide
  have hcic : completedIssuesCount [doneCriticalIssue] = 1 := by decide
  have hrate : dashCompletionRate [doneCriticalIssue] = 100 := by
    unfold dashCompletionRate
    rw [husp, hcic]
    norm_num
  have hstat : dashCommitmentStatus [doneCriticalIssue] = "ON_TRACK" := by
    unfold dashCommitmentStatus
    rw [hrate]
    norm_num [commitmentStatusOf]
  have hov : dashOverloadedMembers [doneCriticalIssue] = [] := by decide
  have hwip : dashWipViolators [doneCriticalIssue] = [] := by decide
  have hct : dashCriticalTotal [doneCriticalIssue] = 1 := by decide
  have hcip : dashCriticalInProgress [doneCriticalIssue] = 0 := by decide
  have hhpt : dashHighPriorityTotal [doneCriticalIssue] = 1 := by decide
  have hhp : dashHighPriorityPercentage [doneCriticalIssue] = 100 := by
    unfold dashHighPriorityPercentage
    rw [hhpt]
    norm_num
  refine ⟨?_, by decide, hcip⟩
  unfold dashboardRecommendations
  rw [hstat, hov, hwip, hct, hcip, hhp]
  decide

/-- Membership in the rule lists produced by the dashboard
recommendation block, one iff per rule, for arbitrary stats. -/
theorem dashRecsOf_spec (status : String) (ov wip : Bool)
    (ct cip : ℕ) (hp : ℚ) :
    (dashRecsOf status ov wip ct cip hp = [DashRec.healthy] ∨
      (dashRecsOf status ov wip ct cip hp).Sublist
        [DashRec.severeScopeCut, DashRec.reduceScope, DashRec.redistribute,
         DashRec.wipFocus, DashRec.startCritical, DashRec.raisePriorityFocus]) ∧
    (DashRec.severeScopeCut ∈ dashRecsOf status ov wip ct cip hp ↔
      status = "SEVERELY_OVERCOMMITTED") ∧
    (DashRec.reduceScope ∈ dashRecsOf status ov wip ct cip hp ↔
      status = "OVERCOMMITTED") ∧
    (DashRec.redistribute ∈ dashRecsOf status ov wip ct cip hp ↔ ov = true) ∧
    (DashRec.wipFocus ∈ dashRecsOf status ov wip ct cip hp ↔ wip = true) ∧
    (DashRec.startCritical ∈ dashRecsOf status ov wip ct cip hp ↔
      0 < ct ∧ cip = 0) ∧
    (DashRec.raisePriorityFocus ∈ dashRecsOf status ov wip ct cip hp ↔ hp < 50) ∧
    (dashRecsOf status ov wip ct cip hp = [DashRec.healthy] ↔
      status ≠ "SEVERELY_OVERCOMMITTED" ∧ status ≠ "OVERCOMMITTED" ∧
      ov = false ∧ wip = false ∧ ¬(0 < ct ∧ cip = 0) ∧ ¬(hp < 50)) := by
  unfold dashRecsOf
  split_ifs <;>
    refine ⟨?_, ?_, ?_, ?_, ?_, ?_, ?_, ?_⟩ <;>
    simp_all <;>
    decide

/-- C5 amended: the dashboard's merged recommendations fire in the
fixed order commitment → workload redistribution → WIP →
critical-not-started → priority-focus, with the fallback healthy
message exactly when none fire; the conditions are: commitment status
SEVERELY_OVERCOMMITTED / OVERCOMMITTED, some member overloaded, some
member with more than 2 issues in progress, critical items present
with none in progress (regardless of how many are completed — unlike
the standalone priority analyzer, which also requires none completed),
and high-priority percentage below 50. -/
theorem dashboard_recommendation_rules (issues : List Issue) :
    (dashboardRecommendations issues = [DashRec.healthy] ∨
      (dashboardRecommendations issues).Sublist
        [DashRec.severeScopeCut, DashRec.reduceScope, DashRec.redistribute,
         DashRec.wipFocus, DashRec.startCritical, DashRec.raisePriorityFocus]) ∧
    (DashRec.severeScopeCut ∈ dashboardRecommendations issues ↔
      dashCommitmentStatus issues = "SEVERELY_OVERCOMMITTED") ∧
    (DashRec.reduceScope ∈ dashboardRecommendations issues ↔
      dashCommitmentStatus issues = "OVERCOMMITTED") ∧
    (DashRec.redistribute ∈ dashboardRecommendations issues ↔
      dashOverloadedMembers issues ≠ []) ∧
    (DashRec.wipFocus ∈ dashboardRecommendations issues ↔
      dashWipViolators issues ≠ []) ∧
    (DashRec.startCritical ∈ dashboardRecommendations issues ↔
      0 < dashCriticalTotal issues ∧ dashCriticalInProgress issues = 0) ∧
    (DashRec.raisePriorityFocus ∈ dashboardRecommendations issues ↔
      dashHighPriorityPercentage issues < 50) ∧
    (dashboardRecommendations issues = [DashRec.healthy] ↔
      dashCommitmentStatus issues ≠ "SEVERELY_OVERCOMMITTED" ∧
      dashCommitmentStatus issues ≠ "OVERCOMMITTED" ∧
      dashOverloadedMembers issues = [] ∧ dashWipViolators issues = [] ∧
      ¬(0 < dashCriticalTotal issues ∧ dashCriticalInProgress issues = 0) ∧
      ¬(dashHighPriorityPercentage issues < 50)) := by
  have h := dashRecsOf_spec (dashCommitmentStatus issues)
    (!(dashOverloadedMembers issues).isEmpty)
    (!(dashWipViolators issues).isEmpty)
    (dashCriticalTotal issues) (dashCriticalInProgress issues)
    (dashHighPriorityPercentage issues)
  have hb : ∀ l : List String, ((!l.isEmpty) = true ↔ l ≠ []) ∧
      ((!l.isEmpty) = false ↔ l = []) := by
    intro l
    cases l <;> simp
  rw [show dashboardRecommendations issues =
    dashRecsOf (dashCommitmentStatus issues)
      (!(dashOverloadedMembers issues).isEmpty)
      (!(dashWipViolators issues).isEmpty)
      (dashCriticalTotal issues) (dashCriticalInProgress issues)
      (dashHighPriorityPercentage issues) from rfl]
  refine ⟨h.1, h.2.1, h.2.2.1, ?_, ?_, h.2.2.2.2.2.1, h.2.2.2.2.2.2.1, ?_⟩
  · rw [h.2.2.2.1]
    exact (hb (dashOverloadedMembers issues)).1
  · rw [h.2.2.2.2.1]
    exact (hb (dashWipViolators issues)).1
  · rw [h.2.2.2.2.2.2.2]
    rw [(hb (dashOverloadedMembers issues)).2, (hb (dashWipViolators issues)).2]

/-- C8 counterexample: two analyzed sprints, the more recent one using
story points (one Done 5-point issue), the older one without points
(one Done pointless issue). The metric is point-based, but the
velocity list keeps only the point-using sprint: 1 velocity value for
2 analyzed sprints, and `average_velocity` is 5, not the mean 5/2 of
the two sprints' point velocities — refuting the claim that a
velocity is computed for each analyzed sprint and averaged. -/
theorem velocity_average_skips_pointless_sprint :
    (sprintWindow [pointedSprint, plainSprint] 3).length = 2 ∧
    (chosenVelocities [pointedSprint, plainSprint] 3).length = 1 ∧
    avgVelocity (chosenVelocities [pointedSprint, plainSprint] 3) = 5 ∧
    avgVelocity ((sprintWindow [pointedSprint, plainSprint] 3).map
      (fun s => completedPointsSum s.issues)) = 5 / 2 ∧
    (5 : ℚ) ≠ 5 / 2 := by
  have hw : sprintWindow [pointedSprint, plainSprint] 3 =
      [pointedSprint, plainSprint] := by decide
  have hp5 : completedPointsSum [donePointedIssue] = 5 := by
    unfold completedPointsSum
    norm_num [bucketOf, isDone, donePointedIssue]
  have hp0 : completedPointsSum [donePlainIssue] = 0 := by
    unfold completedPointsSum
    norm_num [bucketOf, isDone, donePlainIssue]
  have hup : sprintUsesPoints pointedSprint = true := by decide
  have hnp : sprintUsesPoints plainSprint = false := by decide
  have hip : pointedSprint.issues = [donePointedIssue] := rfl
  have hiq : plainSprint.issues = [donePlainIssue] := rfl
  have hch5 : chosenVelocities [pointedSprint, plainSprint] 3 = [5] := by
    unfold chosenVelocities
    rw [hw]
    simp [hup, hnp, hip, hp5]
  refine ⟨by rw [hw]; rfl, by rw [hch5]; rfl, ?_, ?_, by norm_num⟩
  · rw [hch5]
    unfold avgVelocity
    norm_num
  · rw [hw]
    unfold avgVelocity
    simp only [List.map_cons, List.map_nil, hip, hiq, hp5, hp0]
    rw [if_neg (by decide : ¬([5, 0] : List ℚ) = [])]
    norm_num [List.sum_cons, List.sum_nil]

/-- C8 amended: whenever the window holds at least 2 sprints the
analysis succeeds; the metric is point-based iff any analyzed sprint
used points; `average_velocity` is the mean of the chosen velocity
series, where the count-based series has one velocity per analyzed
sprint but the point-based series keeps only the sprints that
themselves used points. -/
theorem velocity_metric_and_average (sprints : List SprintInput) (count : ℕ)
    (h2 : 2 ≤ (sprintWindow sprints count).length) :
    ∃ r, analyzeVelocityTrend sprints count = Except.ok r ∧
      (r.usesPoints = true ↔
        ∃ s ∈ sprintWindow sprints count, sprintUsesPoints s = true) ∧
      r.averageVelocity = avgVelocity (chosenVelocities sprints count) ∧
      (r.usesPoints = false →
        (chosenVelocities sprints count).length = (sprintWindow sprints count).length) ∧
      (r.usesPoints = true →
        chosenVelocities sprints count =
          ((sprintWindow sprints count).filter sprintUsesPoints).map
            (fun s => completedPointsSum s.issues)) := by
  have hok : analyzeVelocityTrend sprints count =
      Except.ok
        { sprintsAnalyzed := (sprintWindow sprints count).length
          direction := (trendCalc (chosenVelocities sprints count)).1
          percentageChange := (trendCalc (chosenVelocities sprints count)).2
          averageVelocity := avgVelocity (chosenVelocities sprints count)
          usesPoints := (sprintWindow sprints count).any sprintUsesPoints } := by
    simp only [analyzeVelocityTrend, if_pos h2]
  refine ⟨_, hok, ?_, rfl, ?_, ?_⟩
  · exact List.any_eq_true
  · intro hfalse
    unfold chosenVelocities
    rw [if_neg (by simp_all)]
    exact List.length_map _ _
  · intro htrue
    unfold chosenVelocities
    rw [if_pos htrue]

/-- C8 amended witness: the two-sprint board of the counterexample
satisfies the window-size hypothesis and the amended conclusion. -/
theorem velocity_metric_and_average_witness :
    ∃ r, analyzeVelocityTrend [pointedSprint, plainSprint] 3 = Except.ok r ∧
      (r.usesPoints = true ↔
        ∃ s ∈ sprintWindow [pointedSprint, plainSprint] 3, sprintUsesPoints s = true) ∧
      r.averageVelocity = avgVelocity (chosenVelocities [pointedSprint, plainSprint] 3) ∧
      (r.usesPoints = false →
        (chosenVelocities [pointedSprint, plainSprint] 3).length =
          (sprintWindow [pointedSprint, plainSprint] 3).length) ∧
      (r.usesPoints = true →
        chosenVelocities [pointedSprint, plainSprint] 3 =
          ((sprintWindow [pointedSprint, plainSprint] 3).filter sprintUsesPoints).map
            (fun s => completedPointsSum s.issues)) :=
  velocity_metric_and_average [pointedSprint, plainSprint] 3 (by decide)

end JiraMCP
